import Mathlib

/-!
Verification development for the firefly (lumen) Erlang-semantics runtime:
term representation with fixnum/bignum canonicalization, bit-shift
semantics, the subtraction operator (arity 2) and its frame-based calling
convention, closure application arity checking, and link-propagation of
exit signals.

The authoritative Rust sources are `src/lumen_runtime/src/otp/erlang/subtract_2.rs`
and the test files under `src/`.  Operations whose implementation is not in
the sampled sources (the `bsl_2` shift operator, the canonicalizing integer
constructor, `apply_2`, exit-signal delivery, and the small helpers from
`liblumen_alloc`) are modelled from the spec; each such definition says so
in its doc comment.
-/

namespace Firefly

mutual

/-- The tagged term representation (spec §3): immediates (small integer,
atom, nil, pid) and heap values (big integer, list cell, tuple, closure).
`smallInteger` is the fixnum variant, `bigInteger` the bignum variant, both
carrying the mathematical integer they encode.  Floats, maps, references
and the binary family are not needed by any claim and are omitted.  Tuple
elements are a `TermList` (a mutually defined list) so that decidable
equality can be derived. -/
inductive Term where
  | smallInteger (n : Int)
  | bigInteger (n : Int)
  | atom (s : String)
  | nil
  | cons (head tail : Term)
  | tuple (elems : TermList)
  | closure (module : String) (fname : String) (arity : Nat)
  | pid (id : Nat)
deriving Repr, DecidableEq

/-- The element sequence of a tuple. -/
inductive TermList where
  | nil
  | cons (head : Term) (tail : TermList)
deriving Repr, DecidableEq

end

/-- A two-element tuple term. -/
def Term.tuple2 (a b : Term) : Term :=
  Term.tuple (TermList.cons a (TermList.cons b TermList.nil))

/-- A three-element tuple term. -/
def Term.tuple3 (a b c : Term) : Term :=
  Term.tuple (TermList.cons a (TermList.cons b (TermList.cons c TermList.nil)))

/-- Modelled from the spec: the fixnum upper bound, "a platform word minus
tag bits" (64-bit word, tag and sign bits). -/
def small_max : Int := 2 ^ 59 - 1

/-- Modelled from the spec: the fixnum lower bound. -/
def small_min : Int := -(2 ^ 59)

/-- Whether a mathematical integer fits the fixnum range. -/
def fits_small (n : Int) : Bool := small_min ≤ n && n ≤ small_max

/-- Modelled from the spec: the canonicalizing integer constructor
(`process.integer(..)` in the tests, not under `src/`): "any integer value
representable as a fixnum must be stored as a fixnum, never as a bignum
(canonical form)". -/
def Term.integer (n : Int) : Term :=
  if fits_small n then Term.smallInteger n else Term.bigInteger n

/-- `is_smallint` of the tests: the term is the fixnum variant. -/
def Term.is_smallint : Term → Bool
  | Term.smallInteger _ => true
  | _ => false

/-- `is_bigint` of the tests: the term is the bignum variant. -/
def Term.is_bigint : Term → Bool
  | Term.bigInteger _ => true
  | _ => false

/-- The mathematical integer a term encodes, when it is an integer term. -/
def Term.integer_value : Term → Option Int
  | Term.smallInteger n => some n
  | Term.bigInteger n => some n
  | _ => none

/-- A term is a number (the model carries only the integer numbers). -/
def Term.is_number (t : Term) : Bool := t.integer_value.isSome

/-- Exception classes of spec §3: `{class, reason, stacktrace}`,
class ∈ \x7bexit, error, throw\x7d. -/
inductive ExceptionClass where
  | error
  | exit
  | throw
deriving Repr, DecidableEq

/-- An exception: class, reason term, and human-readable message text
(the stacktrace is not needed by any claim and is omitted). -/
structure Exception where
  cls : ExceptionClass
  reason : Term
  message : String
deriving Repr, DecidableEq

/-- The `badarith` error raised by arithmetic on non-numbers (spec §4.5). -/
def badarith : Exception :=
  { cls := ExceptionClass.error, reason := Term.atom "badarith", message := "" }

deriving instance DecidableEq for Except

/-- Left shift by a non-negative amount. -/
def shift_left_nat (n : Int) (s : Nat) : Int := n * 2 ^ s

/-- Arithmetic (sign-preserving) right shift by a non-negative amount:
floor division by `2 ^ s`, which sign-extends negative operands. -/
def shift_right_arith (n : Int) (s : Nat) : Int := Int.fdiv n (2 ^ s)

/-- Modelled from the spec: `bsl` on mathematical integers; "shifting left
by a negative amount is defined as shifting right by its absolute value". -/
def bsl_int (n s : Int) : Int :=
  if 0 ≤ s then shift_left_nat n s.toNat else shift_right_arith n (-s).toNat

/-- Modelled from the spec: `bsr` on mathematical integers; "and vice versa
(arithmetic, sign-preserving right shift)". -/
def bsr_int (n s : Int) : Int :=
  if 0 ≤ s then shift_right_arith n s.toNat else shift_left_nat n (-s).toNat

/-- Modelled from the spec: `erlang::bsl_2` (its implementation is not under
`src/`, only its tests are): on integer operands it shifts and returns the
canonical integer term; a non-number operand is an arithmetic failure,
surfacing as an `error`-class `badarith` exception (spec §4.5). -/
def bsl_2 (i sh : Term) : Except Exception Term :=
  match i.integer_value, sh.integer_value with
  | some n, some s => Except.ok (Term.integer (bsl_int n s))
  | _, _ => Except.error badarith

/-- The 72-bit big-integer pattern the `bsl_2` tests build
(`0b1011001110001111...` in
`src/lumen_runtime/src/otp/erlang/tests/bsl_2/with_big_integer_integer.rs`). -/
def test_pattern : Int := 3312275792333964902144

/-- Immutable identity `(module, function, arity)` (spec §3), as
`liblumen_alloc::ModuleFunctionArity`. -/
structure ModuleFunctionArity where
  module : String
  function : String
  arity : Nat
deriving Repr, DecidableEq

/-- Frame placement (spec §3): `Push` = new activation, `Replace` =
tail-call reuse of the current innermost activation. -/
inductive Placement where
  | push
  | replace
deriving Repr, DecidableEq

/-- One suspended native activation (spec §3); in this model the native
continuation entry point is identified by the ModuleFunctionArity. -/
structure Frame where
  module_function_arity : ModuleFunctionArity
deriving Repr, DecidableEq

/-- The slice of the ProcessControlBlock that the calling-convention claims
touch (spec §3): the reduction counter (modelled as the count of reductions
consumed so far: `reduce()` consumes one), the operand stack (top first)
and the frame stack (innermost first). -/
structure ProcessControlBlock where
  reductions : Nat
  stack : List Term
  frames : List Frame
deriving Repr, DecidableEq

/-- `stack_push` of liblumen_alloc, modelled from the spec: push one term
onto the operand stack.  (In Rust it can also fail with the transient
`Alloc` condition; that channel is GC-and-retry, never program-visible
(spec §4.1), and is not modelled.) -/
def ProcessControlBlock.stack_push (p : ProcessControlBlock) (t : Term) :
    ProcessControlBlock :=
  { p with stack := t :: p.stack }

/-- `stack_pop` of liblumen_alloc, modelled from the spec: pop the top of
the operand stack. -/
def ProcessControlBlock.stack_pop (p : ProcessControlBlock) :
    Option (Term × ProcessControlBlock) :=
  match p.stack with
  | [] => none
  | t :: rest => some (t, { p with stack := rest })

/-- `reduce()` of liblumen_alloc, modelled from the spec: "consume exactly
one reduction from the counter" (§4.3); the counter records consumed
reductions. -/
def ProcessControlBlock.reduce (p : ProcessControlBlock) : ProcessControlBlock :=
  { p with reductions := p.reductions + 1 }

/-- `place_frame` of liblumen_alloc, modelled from the spec (§4.3): `Push`
installs a new innermost frame; `Replace` discards the current innermost
frame first (tail-call reuse). -/
def ProcessControlBlock.place_frame (p : ProcessControlBlock) (f : Frame) :
    Placement → ProcessControlBlock
  | Placement.push => { p with frames := f :: p.frames }
  | Placement.replace => { p with frames := f :: p.frames.tail }

namespace subtract_2

/-- `super::module()`: the `otp::erlang` module atom; its definition is not
under `src/`.  Modelled from the spec: the Erlang module. -/
def module : String := "erlang"

/-- `function()` from `src/lumen_runtime/src/otp/erlang/subtract_2.rs`,
exactly as written there: `Atom::try_from_str("self").unwrap()`. -/
def function : String := "self"

/-- `module_function_arity()` from subtract_2.rs, exactly as written there:
arity 0. -/
def module_function_arity : ModuleFunctionArity :=
  { module := module, function := function, arity := 0 }

/-- `frame()` from subtract_2.rs. -/
def frame : Frame := { module_function_arity := module_function_arity }

/-- `native` from subtract_2.rs.  The body of the `number_infix_operator!`
macro it expands to is not under `src/`; modelled from the spec (§4.5):
subtraction is total over all integers with a canonicalized result, and a
non-number operand surfaces as an error-class `badarith` exception. -/
def native (minuend subtrahend : Term) : Except Exception Term :=
  match minuend.integer_value, subtrahend.integer_value with
  | some a, some b => Except.ok (Term.integer (a - b))
  | _, _ => Except.error badarith

/-- `place_frame_with_arguments` from subtract_2.rs: push the subtrahend,
then the minuend, then place the frame with the given placement. -/
def place_frame_with_arguments (process : ProcessControlBlock)
    (placement : Placement) (minuend subtrahend : Term) : ProcessControlBlock :=
  ((process.stack_push subtrahend).stack_push minuend).place_frame frame placement

/-- Outcome of one `code` invocation: either the process state after a
successful return (result pushed, own frame popped, so the caller's frame
is innermost again), or the unwind protocol of spec §4.4 (the operands of
the failing call already popped, no result pushed) carrying the exception. -/
inductive CodeResult where
  | ok (p : ProcessControlBlock)
  | unwind (p : ProcessControlBlock) (e : Exception)
deriving Repr, DecidableEq

/-- `code` from subtract_2.rs: consume one reduction, pop the minuend then
the subtrahend (the Rust `unwrap` of a pop from a too-short stack is a host
panic, modelled as `none`), then run `native`; on success push the result
and pop the own frame (`return_from_call`, modelled from the spec §4.3), on
failure enter the unwind protocol (`result_from_exception`, modelled from
the spec §4.4). -/
def code (process : ProcessControlBlock) : Option CodeResult :=
  let p := process.reduce
  match p.stack with
  | minuend :: subtrahend :: rest =>
    match native minuend subtrahend with
    | Except.ok value =>
        some (CodeResult.ok { p with stack := value :: rest, frames := p.frames.tail })
    | Except.error e =>
        some (CodeResult.unwind { p with stack := rest } e)
  | _ => none

end subtract_2

/-- Proper-list length: `some` of the length for nil-terminated cons
chains, `none` for improper lists and non-lists. -/
def list_length : Term → Option Nat
  | Term.nil => some 0
  | Term.cons _ tail => (list_length tail).map Nat.succ
  | _ => none

/-- A plain rendering of a term for exception message text. -/
def Term.render : Term → String
  | Term.smallInteger n => toString n
  | Term.bigInteger n => toString n
  | Term.atom s => s
  | Term.nil => "[]"
  | Term.cons head tail => "[" ++ head.render ++ "|" ++ tail.render ++ "]"
  | Term.tuple _ => "\x7b..\x7d"
  | Term.closure m fname arity => "&" ++ m ++ ":" ++ fname ++ "/" ++ toString arity
  | Term.pid id => "#PID<" ++ toString id ++ ">"

/-- The message text asserted by the apply_2 badarity test:
`arguments (Args) length (Len) does not match arity (Arity) of
function (Fun)`. -/
def badarity_message (args : Term) (len arity : Nat) (f : Term) : String :=
  "arguments (" ++ args.render ++ ") length (" ++ toString len ++
    ") does not match arity (" ++ toString arity ++ ") of function (" ++
    f.render ++ ")"

/-- The badarity exception: error class, reason `{badarity, {Fun, Args}}`,
message naming the supplied argument-list length, the declared arity and
the function identity. -/
def badarity_exception (f args : Term) (len arity : Nat) : Exception :=
  { cls := ExceptionClass.error
    reason := Term.tuple2 (Term.atom "badarity") (Term.tuple2 f args)
    message := badarity_message args len arity f }

/-- The `badarg` error. -/
def badarg : Exception :=
  { cls := ExceptionClass.error, reason := Term.atom "badarg", message := "" }

/-- Result of a successful apply: the callee's frame is placed and the call
proceeds with the given callee and argument list. -/
inductive ApplyOutcome where
  | frame_placed (callee : Term) (args : Term)
deriving Repr, DecidableEq

/-- Modelled from the spec: `apply_2` (its implementation is not under
`src/`, only its test is): "invoking a closure with an argument list whose
length does not equal its arity yields an error-class exception with reason
badarity and a message naming the supplied length, the declared arity, and
the function identity"; on a matching arity the call proceeds
(`with_arity_returns_function_return`). -/
def apply_2 (f args : Term) : Except Exception ApplyOutcome :=
  match f with
  | Term.closure _ _ arity =>
    match list_length args with
    | some len =>
        if len = arity then Except.ok (ApplyOutcome.frame_placed f args)
        else Except.error (badarity_exception f args len arity)
    | none => Except.error badarg
  | _ => Except.error badarg

/-- Process status (spec §3). -/
inductive Status where
  | runnable
  | waiting
  | suspended
  | exiting (reason : Term)
deriving Repr, DecidableEq

/-- The slice of a linked PCB that exit-signal delivery touches: its
status, its trap-exit flag, and its mailbox. -/
structure LinkedProcess where
  status : Status
  trap_exit : Bool
  mailbox : List Term
deriving Repr, DecidableEq

/-- Modelled from the spec: delivery of a link exit signal (§4.2, §5, §8):
a trapping process receives the signal as an ordinary mailbox message
`{EXIT, Pid, Reason}` instead of being forced to exit; a non-trapping
process transitions to `Exiting` with the propagated reason, unless the
reason is `normal`, in which case it is unaffected. -/
def deliver_exit_signal (a : LinkedProcess) (from_pid : Nat) (reason : Term) :
    LinkedProcess :=
  if a.trap_exit then
    { a with mailbox :=
        a.mailbox ++ [Term.tuple3 (Term.atom "EXIT") (Term.pid from_pid) reason] }
  else if reason = Term.atom "normal" then a
  else { a with status := Status.exiting reason }

/-! Helper lemmas about the canonical integer constructor and the floor
division underlying the arithmetic right shift. -/

/-- The canonical constructor encodes exactly the requested value. -/
theorem integer_value_integer (n : Int) : (Term.integer n).integer_value = some n := by
  unfold Term.integer
  split <;> rfl

/-- The canonical constructor yields the fixnum variant exactly on the
fixnum range. -/
theorem is_smallint_integer (n : Int) :
    (Term.integer n).is_smallint = fits_small n := by
  rcases Bool.eq_false_or_eq_true (fits_small n) with h | h <;>
    simp [Term.integer, h, Term.is_smallint]

/-- The canonical constructor yields the bignum variant exactly off the
fixnum range. -/
theorem is_bigint_integer (n : Int) :
    (Term.integer n).is_bigint = !fits_small n := by
  rcases Bool.eq_false_or_eq_true (fits_small n) with h | h <;>
    simp [Term.integer, h, Term.is_bigint]

/-- Right-shifting a non-negative integer by enough bits yields zero. -/
theorem shift_right_small_nonneg (n : Int) (s : Nat) (h0 : 0 ≤ n)
    (h : n < 2 ^ s) : shift_right_arith n s = 0 := by
  unfold shift_right_arith
  rw [Int.fdiv_eq_ediv _ (by positivity)]
  exact Int.ediv_eq_zero_of_lt h0 h

/-- The arithmetic right shift of a negative integer stays negative. -/
theorem shift_right_neg_of_neg (n : Int) (s : Nat) (h : n < 0) :
    shift_right_arith n s < 0 := by
  unfold shift_right_arith
  rw [Int.fdiv_eq_ediv _ (by positivity)]
  exact Int.ediv_neg' h (by positivity)

/-- Right-shifting a negative integer within the shift window yields -1. -/
theorem shift_right_sign_extend (n : Int) (s : Nat) (hneg : n < 0)
    (hbound : -(2 ^ s) ≤ n) : shift_right_arith n s = -1 := by
  unfold shift_right_arith
  rw [Int.fdiv_eq_ediv _ (by positivity)]
  have hpos : (0 : Int) < 2 ^ s := by positivity
  have hlt : n / 2 ^ s < 0 := Int.ediv_neg' hneg hpos
  have hge : -(2 ^ s) / 2 ^ s ≤ n / 2 ^ s := Int.ediv_le_ediv hpos hbound
  have hself : -(2 ^ s) / 2 ^ s = -1 := Int.neg_ediv_self _ hpos.ne'
  omega

/-- Any shift at least `(-n).toNat` moves the window past a negative `n`. -/
theorem neg_le_two_pow (n : Int) (hn : n < 0) (s : Nat)
    (hs : (-n).toNat ≤ s) : -(2 ^ s) ≤ n := by
  have h1 : (-n).toNat < 2 ^ (-n).toNat := Nat.lt_two_pow _
  have h2 : (2 : Nat) ^ (-n).toNat ≤ 2 ^ s := Nat.pow_le_pow_right (by norm_num) hs
  have h3 : ((-n).toNat : Int) = -n := Int.toNat_of_nonneg (by omega)
  have h4 : (((2 : Nat) ^ s : Nat) : Int) = (2 : Int) ^ s := by push_cast; ring
  have h5 : ((-n).toNat : Int) < (((2 : Nat) ^ (-n).toNat : Nat) : Int) := by
    exact_mod_cast h1
  have h6 : (((2 : Nat) ^ (-n).toNat : Nat) : Int) ≤ (((2 : Nat) ^ s : Nat) : Int) := by
    exact_mod_cast h2
  have h7 : -n ≤ (2 : Int) ^ s := by linarith
  linarith

/-! The claim theorems. -/

/-- C1: Canonical integer form: every value built by the canonicalizing
integer constructor that fits the fixnum range is a fixnum, never a
bignum, and every value that overflows the fixnum range is a bignum; in
particular `bsl_2` on the big-integer test pattern with shift -69 yields a
small-integer result 5, while shifts -1 and +1 yield the big-integer
results the tests expect. -/
theorem canonical_integer_form :
    (∀ n : Int, (Term.integer n).is_smallint = fits_small n ∧
      (Term.integer n).is_bigint = !fits_small n) ∧
    bsl_2 (Term.integer test_pattern) (Term.integer (-69)) =
      Except.ok (Term.smallInteger 5) ∧
    bsl_2 (Term.integer test_pattern) (Term.integer (-1)) =
      Except.ok (Term.bigInteger 1656137896166982451072) ∧
    bsl_2 (Term.integer test_pattern) (Term.integer 1) =
      Except.ok (Term.bigInteger 6624551584667929804288) := by
  refine ⟨fun n => ⟨is_smallint_integer n, is_bigint_integer n⟩,
    by decide, by decide, by decide⟩

/-- C2: shifting a non-negative integer right by more bits than its
magnitude requires yields exactly zero; shifting a negative integer right
converges to -1 (infinite sign extension) and is never zero; in particular
`bsl_2` on the positive 72-bit test pattern with shift -74 returns 0. -/
theorem right_shift_underflow_semantics :
    (∀ (n : Int) (s : Nat), 0 ≤ n → n < 2 ^ s → shift_right_arith n s = 0) ∧
    (∀ n : Int, n < 0 →
      (∀ s : Nat, shift_right_arith n s ≠ 0) ∧
      ∃ S : Nat, ∀ s : Nat, S ≤ s → shift_right_arith n s = -1) ∧
    bsl_2 (Term.integer test_pattern) (Term.integer (-74)) =
      Except.ok (Term.smallInteger 0) := by
  refine ⟨shift_right_small_nonneg, fun n hn =>
    ⟨fun s => (shift_right_neg_of_neg n s hn).ne, (-n).toNat,
      fun s hs => shift_right_sign_extend n s hn (neg_le_two_pow n hn s hs)⟩,
    by decide⟩

/-- C2 witness: the theorem at concrete inputs. -/
theorem right_shift_underflow_semantics_witness :
    shift_right_arith 5 3 = 0 ∧ shift_right_arith (-5) 100 ≠ 0 :=
  ⟨right_shift_underflow_semantics.1 5 3 (by decide) (by decide),
    (right_shift_underflow_semantics.2.1 (-5) (by decide)).1 100⟩

/-- C3: shifting by a negative amount is the opposite-direction shift by
the absolute value of the amount: for every integer `n` and shift `s ≥ 0`,
`bsl n (-s) = bsr n s` and `bsr n (-s) = bsl n s`, the right shift being
arithmetic (sign-preserving). -/
theorem shift_by_negative_swaps_direction (n s : Int) (hs : 0 ≤ s) :
    bsl_int n (-s) = bsr_int n s ∧ bsr_int n (-s) = bsl_int n s := by
  by_cases h0 : s = 0
  · subst h0
    constructor <;>
      simp [bsl_int, bsr_int, shift_left_nat, shift_right_arith, Int.fdiv_one]
  · have hneg : ¬ (0 ≤ -s) := by omega
    constructor
    · simp [bsl_int, bsr_int, hs, hneg, neg_neg]
    · simp [bsl_int, bsr_int, hs, hneg, neg_neg]

/-- C3 witness: the theorem at concrete inputs. -/
theorem shift_by_negative_swaps_direction_witness :
    bsl_int 7 (-2) = bsr_int 7 2 ∧ bsr_int 7 (-2) = bsl_int 7 2 :=
  shift_by_negative_swaps_direction 7 2 (by decide)

/-- C4: subtraction with a non-number operand yields an error-class
exception with reason badarith (never a host fault, never another class:
the operation is a total function into value-or-exception), and on every
pair of integer operands it succeeds with the canonical difference. -/
theorem subtract_classification :
    (∀ a b : Term, a.is_number = false ∨ b.is_number = false →
      subtract_2.native a b = Except.error badarith ∧
      badarith.cls = ExceptionClass.error) ∧
    (∀ x y : Int,
      subtract_2.native (Term.integer x) (Term.integer y) =
        Except.ok (Term.integer (x - y))) := by
  constructor
  · intro a b h
    refine ⟨?_, rfl⟩
    cases hva : a.integer_value with
    | none => cases hvb : b.integer_value <;> simp [subtract_2.native, hva, hvb]
    | some v =>
      cases hvb : b.integer_value with
      | none => simp [subtract_2.native, hva, hvb]
      | some w =>
        exfalso
        rcases h with h | h <;> unfold Term.is_number at h <;>
          simp [hva, hvb] at h
  · intro x y
    simp [subtract_2.native, integer_value_integer]

/-- C4 witness: the theorem at concrete inputs. -/
theorem subtract_classification_witness :
    subtract_2.native (Term.atom "x") (Term.smallInteger 1) =
      Except.error badarith ∧
    badarith.cls = ExceptionClass.error :=
  subtract_classification.1 (Term.atom "x") (Term.smallInteger 1) (Or.inl rfl)

/-- C5: applying a closure to an argument list whose length does not equal
the closure's arity yields an error-class exception with reason badarity
whose message names the supplied argument-list length, the declared arity
and the function identity (shown both symbolically through
`badarity_message` and on a fully concrete instance). -/
theorem apply_badarity (m fname : String) (arity : Nat) (args : Term)
    (len : Nat) (hlen : list_length args = some len) (hne : len ≠ arity) :
    apply_2 (Term.closure m fname arity) args =
      Except.error (badarity_exception (Term.closure m fname arity) args len arity) ∧
    (badarity_exception (Term.closure m fname arity) args len arity).cls =
      ExceptionClass.error ∧
    (badarity_exception (Term.closure m fname arity) args len arity).reason =
      Term.tuple2 (Term.atom "badarity")
        (Term.tuple2 (Term.closure m fname arity) args) ∧
    (badarity_exception (Term.closure m fname arity) args len arity).message =
      "arguments (" ++ args.render ++ ") length (" ++ toString len ++
        ") does not match arity (" ++ toString arity ++ ") of function (" ++
        (Term.closure m fname arity).render ++ ")" ∧
    (badarity_exception (Term.closure "m" "f" 3)
        (Term.cons (Term.smallInteger 1) Term.nil) 1 3).message =
      "arguments ([1|[]]) length (1) does not match arity (3) of function (&m:f/3)" := by
  refine ⟨?_, rfl, rfl, rfl, by decide⟩
  simp [apply_2, hlen, hne]

/-- C5 witness: the theorem at concrete inputs. -/
theorem apply_badarity_witness :
    apply_2 (Term.closure "module" "function" 2) Term.nil =
      Except.error
        (badarity_exception (Term.closure "module" "function" 2) Term.nil 0 2) :=
  (apply_badarity "module" "function" 2 Term.nil 0 rfl (by decide)).1

/-- C6 counterexample: a 0-arity exported closure applied to the empty
argument list does not raise badarity: the argument-list length 0 equals
the arity 0, so the call proceeds. -/
theorem apply_zero_arity_empty_args_succeeds :
    apply_2 (Term.closure "module" "function" 0) Term.nil =
      Except.ok
        (ApplyOutcome.frame_placed (Term.closure "module" "function" 0) Term.nil) ∧
    apply_2 (Term.closure "module" "function" 0) Term.nil ≠
      Except.error
        (badarity_exception (Term.closure "module" "function" 0) Term.nil 0 0) := by
  exact ⟨rfl, by decide⟩

/-- C6 (amended): an exported closure of nonzero arity applied to an empty
argument list raises badarity with the arity and the function name embedded
in the message text; a 0-arity closure applied to an empty argument list
instead succeeds. -/
theorem apply_empty_args_badarity_nonzero_arity (m fname : String)
    (arity : Nat) (h : arity ≠ 0) :
    apply_2 (Term.closure m fname arity) Term.nil =
      Except.error
        (badarity_exception (Term.closure m fname arity) Term.nil 0 arity) ∧
    (badarity_exception (Term.closure "module" "function" 2) Term.nil 0 2).message =
      "arguments ([]) length (0) does not match arity (2) of function (&module:function/2)" := by
  constructor
  · simp [apply_2, list_length, Ne.symm h]
  · decide

/-- C6 (amended) witness: the theorem at concrete inputs. -/
theorem apply_empty_args_badarity_nonzero_arity_witness :
    apply_2 (Term.closure "module" "function" 2) Term.nil =
      Except.error
        (badarity_exception (Term.closure "module" "function" 2) Term.nil 0 2) :=
  (apply_empty_args_badarity_nonzero_arity "module" "function" 2 (by decide)).1

/-- C7: one invocation of the subtraction `code` operation consumes exactly
one reduction, pops exactly its two arguments, and then on success pushes
the single result and pops its own frame so the caller's frame resumes,
while on failure it enters the unwind protocol without pushing a result. -/
theorem subtract_code_protocol (r : Nat) (a b : Term) (rest : List Term)
    (fr : Frame) (fs : List Frame) :
    (∀ v, subtract_2.native a b = Except.ok v →
      subtract_2.code ⟨r, a :: b :: rest, fr :: fs⟩ =
        some (subtract_2.CodeResult.ok ⟨r + 1, v :: rest, fs⟩)) ∧
    (∀ e, subtract_2.native a b = Except.error e →
      subtract_2.code ⟨r, a :: b :: rest, fr :: fs⟩ =
        some (subtract_2.CodeResult.unwind ⟨r + 1, rest, fr :: fs⟩ e)) := by
  constructor
  · intro v hv
    simp [subtract_2.code, ProcessControlBlock.reduce, hv]
  · intro e he
    simp [subtract_2.code, ProcessControlBlock.reduce, he]

/-- C7 witness: the theorem at concrete inputs, both branches. -/
theorem subtract_code_protocol_witness :
    subtract_2.code ⟨0, [Term.smallInteger 3, Term.smallInteger 1], [subtract_2.frame]⟩ =
      some (subtract_2.CodeResult.ok ⟨1, [Term.smallInteger 2], []⟩) ∧
    subtract_2.code ⟨0, [Term.atom "x", Term.smallInteger 1], [subtract_2.frame]⟩ =
      some (subtract_2.CodeResult.unwind ⟨1, [], [subtract_2.frame]⟩ badarith) :=
  ⟨(subtract_code_protocol 0 (Term.smallInteger 3) (Term.smallInteger 1) []
      subtract_2.frame []).1 (Term.smallInteger 2) (by decide),
    (subtract_code_protocol 0 (Term.atom "x") (Term.smallInteger 1) []
      subtract_2.frame []).2 badarith (by decide)⟩

/-- C8: the frame installed by the subtraction operator's
`place_frame_with_arguments` carries a ModuleFunctionArity whose function
is "self" and whose arity is 0 — not the subtraction function with
arity 2 that the operator's own doc comment (the `-` infix operator of
arity 2) declares. -/
theorem subtract_frame_mfa_is_self_zero :
    (subtract_2.place_frame_with_arguments ⟨0, [], []⟩ Placement.push
        (Term.smallInteger 3) (Term.smallInteger 1)).frames =
      [{ module_function_arity :=
          { module := "erlang", function := "self", arity := 0 } }] ∧
    subtract_2.module_function_arity.arity = 0 ∧
    subtract_2.module_function_arity.arity ≠ 2 ∧
    subtract_2.module_function_arity.function ≠ "-" := by
  exact ⟨rfl, rfl, by decide, by decide⟩

/-- C9: link-propagation of an exit signal: a non-trapping linked process
transitions to Exiting with the propagated non-normal reason; a trapping
linked process instead receives an exit-notification message carrying the
exiting process's identity and the reason; a normal exit never forces the
linked process to exit. -/
theorem link_exit_propagation (a : LinkedProcess) (bpid : Nat) (r : Term) :
    (a.trap_exit = false → r ≠ Term.atom "normal" →
      (deliver_exit_signal a bpid r).status = Status.exiting r) ∧
    (a.trap_exit = true →
      deliver_exit_signal a bpid r =
        { a with mailbox :=
            a.mailbox ++ [Term.tuple3 (Term.atom "EXIT") (Term.pid bpid) r] }) ∧
    (r = Term.atom "normal" →
      (deliver_exit_signal a bpid r).status = a.status) := by
  refine ⟨?_, ?_, ?_⟩
  · intro ht hr
    simp [deliver_exit_signal, ht, hr]
  · intro ht
    simp [deliver_exit_signal, ht]
  · intro hr
    by_cases ht : a.trap_exit <;> simp [deliver_exit_signal, ht, hr]

/-- C9 witness: the theorem at concrete inputs, all three branches. -/
theorem link_exit_propagation_witness :
    (deliver_exit_signal ⟨Status.runnable, false, []⟩ 1 (Term.atom "killed")).status =
      Status.exiting (Term.atom "killed") ∧
    deliver_exit_signal ⟨Status.runnable, true, []⟩ 1 (Term.atom "killed") =
      ⟨Status.runnable, true,
        [Term.tuple3 (Term.atom "EXIT") (Term.pid 1) (Term.atom "killed")]⟩ ∧
    (deliver_exit_signal ⟨Status.runnable, false, []⟩ 1 (Term.atom "normal")).status =
      Status.runnable :=
  ⟨(link_exit_propagation ⟨Status.runnable, false, []⟩ 1 (Term.atom "killed")).1
      rfl (by decide),
    (link_exit_propagation ⟨Status.runnable, true, []⟩ 1 (Term.atom "killed")).2.1 rfl,
    (link_exit_propagation ⟨Status.runnable, false, []⟩ 1 (Term.atom "normal")).2.2 rfl⟩

/-- C10: operand order is preserved through the calling convention: for
integer operands, `place_frame_with_arguments` pushes the subtrahend then
the minuend (so the minuend is on top), installs the subtraction frame,
and the subsequent `code` invocation pops them in that order and pushes
`minuend - subtrahend`, never the reverse difference. -/
theorem subtract_operand_order (p : ProcessControlBlock) (x y : Int) :
    (subtract_2.place_frame_with_arguments p Placement.push
        (Term.integer x) (Term.integer y)).stack =
      Term.integer x :: Term.integer y :: p.stack ∧
    (subtract_2.place_frame_with_arguments p Placement.push
        (Term.integer x) (Term.integer y)).frames =
      subtract_2.frame :: p.frames ∧
    subtract_2.code
        (subtract_2.place_frame_with_arguments p Placement.push
          (Term.integer x) (Term.integer y)) =
      some (subtract_2.CodeResult.ok
        { reductions := p.reductions + 1
          stack := Term.integer (x - y) :: p.stack
          frames := p.frames }) := by
  refine ⟨rfl, rfl, ?_⟩
  simp [subtract_2.place_frame_with_arguments, ProcessControlBlock.stack_push,
    ProcessControlBlock.place_frame, subtract_2.code, ProcessControlBlock.reduce,
    subtract_2.native, integer_value_integer]

end Firefly
